import Mathlib

/-!
Verification of the blog-post generator service (src/app.py).

The service is a thin orchestration layer: a request handler validates a
topic string, a news fetcher issues one outbound call to a news API, and a
content generator issues three sequential outbound calls to a generative
text API (title, meta-description, body) and assembles the results.

The embedding below is a shallow one.  Outbound HTTP behaviour is an
explicit environment (`Env`): the news API response for the request and the
generation backend as a function from call parameters to a result.  Each
embedded operation returns its result together with the list of outbound
calls it issued, so call-count and short-circuit properties are statements
about that trace.  Python exceptions become `Except HTTPException`.
Python str.strip is modelled by `strip` below (structural recursion over
the character list, so that it evaluates inside the kernel).
-/

/-- Model of Python str.strip(): drop whitespace characters from both ends. -/
def strip (s : String) : String :=
  String.mk (((s.data.dropWhile Char.isWhitespace).reverse.dropWhile Char.isWhitespace).reverse)

/-- One article object from the news API; the title field may be missing
(Python dict.get with default). -/
structure Article where
  title : Option String
deriving DecidableEq

/-- Behaviour of the news API for one request: either a successful response
carrying the extracted news list, or a transport-level failure (timeout,
connection error, non-2xx status via raise_for_status) carrying the cause
text of the underlying exception. -/
inductive NewsResult where
  | success (news_data : List Article)
  | failure (cause : String)
deriving DecidableEq

/-- Query parameters of the news call (src/app.py lines 31-36). -/
structure NewsParams where
  language : String
  keywords : String
  apiKey : String
deriving DecidableEq

/-- Parameters of one openai.ChatCompletion.create call: model name, the
single user-message content, and the sampling parameters.  An empty stop
list or a none penalty means the Python call omits that argument. -/
structure ChatParams where
  model : String
  content : String
  max_tokens : Nat
  temperature : ℚ
  stop : List String
  presence_penalty : Option ℚ
  frequency_penalty : Option ℚ
deriving DecidableEq

/-- One outbound call issued by the service. -/
inductive OutboundCall where
  | newsCall (params : NewsParams)
  | genCall (params : ChatParams)
deriving DecidableEq

/-- Model of fastapi.HTTPException: a status code and a detail message. -/
structure HTTPException where
  status_code : Nat
  detail : String
deriving DecidableEq

/-- The response record assembled by generate_content (src/app.py 105-109). -/
structure GeneratedPost where
  title : String
  meta_description : String
  post_content : String
deriving DecidableEq

/-- The external world for one request: the news API key and the behaviour
of the two upstream services.  The generation backend either returns the
generated text or fails with an OpenAI error carrying a cause message. -/
structure Env where
  currentsKey : String
  news : NewsResult
  gen : ChatParams → Except String String

/-- The fixed sentinel returned when the news list is empty (line 42). -/
def newsSentinel : String := "Свежих новостей не найдено."

/-- Lines 41-44: the string built from a successful news response: the
sentinel when the list is empty, otherwise the titles of the first 5
articles joined by newlines, a missing title contributing "". -/
def newsDigest (news_data : List Article) : String :=
  if news_data.isEmpty then newsSentinel
  else String.intercalate "\n" ((news_data.take 5).map (fun a => a.title.getD ""))

/-- get_recent_news (lines 26-46): one outbound call with language "en",
keywords = topic and the API key; on transport failure an HTTPException 502
whose detail embeds the cause; on success the digest string. -/
def get_recent_news (env : Env) (topic : String) :
    Except HTTPException String × List OutboundCall :=
  match env.news with
  | NewsResult.failure cause =>
      (Except.error ⟨502, "Ошибка при обращении к Currents API: " ++ cause⟩,
       [OutboundCall.newsCall ⟨"en", topic, env.currentsKey⟩])
  | NewsResult.success news_data =>
      (Except.ok (newsDigest news_data),
       [OutboundCall.newsCall ⟨"en", topic, env.currentsKey⟩])

/-- The title-generation prompt (line 60). -/
def titlePrompt (topic recent_news : String) : String :=
  "Придумайте привлекательный и точный заголовок для статьи на тему \x27" ++ topic ++
  "\x27, с учётом актуальных новостей:\n" ++ recent_news ++
  ". Заголовок должен быть интересным и ясно передавать суть темы. Не используй символы # и - в тексте, даже в заголовках."

/-- The meta-description prompt (line 73); it embeds the generated title. -/
def metaPrompt (title : String) : String :=
  "Напишите мета-описание для статьи с заголовком: \x27" ++ title ++
  "\x27. Оно должно быть полным, информативным и содержать основные ключевые слова. Не используй символы # и - в тексте, даже в заголовках."

/-- The body prompt (lines 86-96); it embeds the topic and the news digest. -/
def bodyPrompt (topic recent_news : String) : String :=
  "Напишите подробную статью на тему \x27" ++ topic ++ "\x27, используя последние новости:\n" ++
  recent_news ++ ".\n" ++
  "                Статья должна быть:\n" ++
  "                1. Информативной и логичной\n" ++
  "                2. Содержать не менее 500 символов\n" ++
  "                3. Иметь четкую структуру с подзаголовками\n" ++
  "                4. Включать анализ текущих трендов\n" ++
  "                5. Иметь вступление, основную часть и заключение\n" ++
  "                6. Включать примеры из актуальных новостей\n" ++
  "                7. Каждый абзац должен быть не менее 3-4 предложений\n" ++
  "                8. Текст должен быть легким для восприятия и содержательным\n" ++
  "                9. Не используй символ # в тексте, даже в заголовках."

/-- The title call (lines 56-65): max_tokens 20, temperature 1.0, stop at
the first newline. -/
def titleParams (topic recent_news : String) : ChatParams :=
  { model := "gpt-4o-mini", content := titlePrompt topic recent_news,
    max_tokens := 20, temperature := 1, stop := ["\n"],
    presence_penalty := none, frequency_penalty := none }

/-- The meta-description call (lines 69-78): max_tokens 30, temperature
1.0, stop at the first period. -/
def metaParams (title : String) : ChatParams :=
  { model := "gpt-4o-mini", content := metaPrompt title,
    max_tokens := 30, temperature := 1, stop := ["."],
    presence_penalty := none, frequency_penalty := none }

/-- The body call (lines 82-102): max_tokens 1000, temperature 1.0, no stop
sequence, presence and frequency penalties 0.6. -/
def bodyParams (topic recent_news : String) : ChatParams :=
  { model := "gpt-4o-mini", content := bodyPrompt topic recent_news,
    max_tokens := 1000, temperature := 1, stop := [],
    presence_penalty := some (0.6 : ℚ), frequency_penalty := some (0.6 : ℚ) }

/-- generate_content (lines 48-114): fetch the news digest (an HTTPException
from get_recent_news propagates unchanged, the news call sits outside the
try block), then the three sequential generation calls; the first backend
failure aborts the remaining calls and becomes an HTTPException 500 whose
detail embeds the cause; on success the three trimmed texts are assembled. -/
def generate_content (env : Env) (topic : String) :
    Except HTTPException GeneratedPost × List OutboundCall :=
  match get_recent_news env topic with
  | (Except.error e, calls) => (Except.error e, calls)
  | (Except.ok recent_news, calls) =>
    match env.gen (titleParams topic recent_news) with
    | Except.error e =>
        (Except.error ⟨500, "Ошибка при обращении к OpenAI API: " ++ e⟩,
         calls ++ [OutboundCall.genCall (titleParams topic recent_news)])
    | Except.ok titleRaw =>
      match env.gen (metaParams (strip titleRaw)) with
      | Except.error e =>
          (Except.error ⟨500, "Ошибка при обращении к OpenAI API: " ++ e⟩,
           calls ++ [OutboundCall.genCall (titleParams topic recent_news),
                     OutboundCall.genCall (metaParams (strip titleRaw))])
      | Except.ok metaRaw =>
        match env.gen (bodyParams topic recent_news) with
        | Except.error e =>
            (Except.error ⟨500, "Ошибка при обращении к OpenAI API: " ++ e⟩,
             calls ++ [OutboundCall.genCall (titleParams topic recent_news),
                       OutboundCall.genCall (metaParams (strip titleRaw)),
                       OutboundCall.genCall (bodyParams topic recent_news)])
        | Except.ok bodyRaw =>
            (Except.ok { title := strip titleRaw,
                         meta_description := strip metaRaw,
                         post_content := strip bodyRaw },
             calls ++ [OutboundCall.genCall (titleParams topic recent_news),
                       OutboundCall.genCall (metaParams (strip titleRaw)),
                       OutboundCall.genCall (bodyParams topic recent_news)])

/-- The /generate-post handler (lines 116-124): reject an empty or
whitespace-only topic with a 400 before any outbound call, otherwise pass
the stripped topic to generate_content. -/
def generate_post (env : Env) (topic : String) :
    Except HTTPException GeneratedPost × List OutboundCall :=
  if topic.isEmpty || (strip topic).isEmpty then
    (Except.error ⟨400, "Поле \x27topic\x27 не должно быть пустым"⟩, [])
  else
    generate_content env (strip topic)

/-! Helper lemmas about the embedded operations. -/

lemma topic_guard {topic : String} (h : strip topic ≠ "") :
    (topic.isEmpty || (strip topic).isEmpty) = false := by
  have ht : topic ≠ "" := by
    intro he
    subst he
    exact h rfl
  have h1 : topic.isEmpty = false :=
    Bool.eq_false_iff.mpr (fun hb => ht ((String.isEmpty_iff topic).mp hb))
  have h2 : (strip topic).isEmpty = false :=
    Bool.eq_false_iff.mpr (fun hb => h ((String.isEmpty_iff (strip topic)).mp hb))
  rw [h1, h2]
  rfl

lemma generate_post_strip (env : Env) (topic : String) (h : strip topic ≠ "") :
    generate_post env topic = generate_content env (strip topic) := by
  unfold generate_post
  rw [topic_guard h]
  rfl

lemma get_recent_news_ok (env : Env) (topic : String) (arts : List Article)
    (h : env.news = NewsResult.success arts) :
    get_recent_news env topic =
      (Except.ok (newsDigest arts),
       [OutboundCall.newsCall ⟨"en", topic, env.currentsKey⟩]) := by
  unfold get_recent_news
  rw [h]

lemma get_recent_news_fail (env : Env) (topic cause : String)
    (h : env.news = NewsResult.failure cause) :
    get_recent_news env topic =
      (Except.error ⟨502, "Ошибка при обращении к Currents API: " ++ cause⟩,
       [OutboundCall.newsCall ⟨"en", topic, env.currentsKey⟩]) := by
  unfold get_recent_news
  rw [h]

lemma generate_content_newsFail (env : Env) (topic cause : String)
    (h : env.news = NewsResult.failure cause) :
    generate_content env topic =
      (Except.error ⟨502, "Ошибка при обращении к Currents API: " ++ cause⟩,
       [OutboundCall.newsCall ⟨"en", topic, env.currentsKey⟩]) := by
  unfold generate_content
  rw [get_recent_news_fail env topic cause h]

lemma generate_content_metaFail (env : Env) (topic : String) (arts : List Article)
    (t cause : String)
    (hnews : env.news = NewsResult.success arts)
    (ht : env.gen (titleParams topic (newsDigest arts)) = Except.ok t)
    (hm : env.gen (metaParams (strip t)) = Except.error cause) :
    generate_content env topic =
      (Except.error ⟨500, "Ошибка при обращении к OpenAI API: " ++ cause⟩,
       [OutboundCall.newsCall ⟨"en", topic, env.currentsKey⟩,
        OutboundCall.genCall (titleParams topic (newsDigest arts)),
        OutboundCall.genCall (metaParams (strip t))]) := by
  unfold generate_content
  rw [get_recent_news_ok env topic arts hnews]
  simp only [ht, hm, List.cons_append, List.nil_append]

lemma generate_content_ok (env : Env) (topic : String) (arts : List Article)
    (t m b : String)
    (hnews : env.news = NewsResult.success arts)
    (ht : env.gen (titleParams topic (newsDigest arts)) = Except.ok t)
    (hm : env.gen (metaParams (strip t)) = Except.ok m)
    (hb : env.gen (bodyParams topic (newsDigest arts)) = Except.ok b) :
    generate_content env topic =
      (Except.ok ⟨strip t, strip m, strip b⟩,
       [OutboundCall.newsCall ⟨"en", topic, env.currentsKey⟩,
        OutboundCall.genCall (titleParams topic (newsDigest arts)),
        OutboundCall.genCall (metaParams (strip t)),
        OutboundCall.genCall (bodyParams topic (newsDigest arts))]) := by
  unfold generate_content
  rw [get_recent_news_ok env topic arts hnews]
  simp only [ht, hm, hb, List.cons_append, List.nil_append]

lemma newsDigest_take5 (l₁ l₂ : List Article) (h5 : l₁.take 5 = l₂.take 5)
    (h₁ : l₁ ≠ []) (h₂ : l₂ ≠ []) : newsDigest l₁ = newsDigest l₂ := by
  have e₁ : l₁.isEmpty = false := by
    cases l₁ with
    | nil => exact absurd rfl h₁
    | cons a tl => rfl
  have e₂ : l₂.isEmpty = false := by
    cases l₂ with
    | nil => exact absurd rfl h₂
    | cons a tl => rfl
  unfold newsDigest
  rw [h5, e₁, e₂]

lemma generate_content_digest_eq (key T : String) (gen : ChatParams → Except String String)
    (l₁ l₂ : List Article) (hdig : newsDigest l₁ = newsDigest l₂) :
    generate_content ⟨key, NewsResult.success l₁, gen⟩ T =
      generate_content ⟨key, NewsResult.success l₂, gen⟩ T := by
  unfold generate_content
  rw [get_recent_news_ok ⟨key, NewsResult.success l₁, gen⟩ T l₁ rfl,
      get_recent_news_ok ⟨key, NewsResult.success l₂, gen⟩ T l₂ rfl, hdig]

/-! Stub environments used by the concrete witnesses below. -/

/-- A generation backend that always succeeds with a fixed text. -/
def genConst : ChatParams → Except String String := fun _ => Except.ok " T "

/-- A news success with one article, paired with genConst. -/
def stubEnv : Env := ⟨"key", NewsResult.success [⟨some "n"⟩], genConst⟩

/-- A news response with 7 articles, one of them without a title field. -/
def sevenArts : List Article :=
  [⟨some "t1"⟩, ⟨some "t2"⟩, ⟨none⟩, ⟨some "t4"⟩, ⟨some "t5"⟩, ⟨some "t6"⟩, ⟨some "t7"⟩]

/-- stubEnv with the 7-article news response. -/
def env7 : Env := ⟨"key", NewsResult.success sevenArts, genConst⟩

/-- A news API that fails with a timeout cause text. -/
def envFail : Env := ⟨"key", NewsResult.failure "timeout", genConst⟩

/-- A backend where the title call succeeds and the meta-description call
(recognised by its max_tokens of 30) fails. -/
def genMetaFail : ChatParams → Except String String := fun p =>
  if p.max_tokens = 30 then Except.error "boom" else Except.ok " T "

/-- stubEnv with the meta-failing backend. -/
def envMetaFail : Env := ⟨"key", NewsResult.success [⟨some "n"⟩], genMetaFail⟩

/-- A backend that succeeds on every call with whitespace-only text. -/
def genWS : ChatParams → Except String String := fun _ => Except.ok " "

/-- stubEnv with the whitespace-producing backend. -/
def envWS : Env := ⟨"key", NewsResult.success [⟨some "n"⟩], genWS⟩

/-- A backend answering each of the three calls (recognised by max_tokens)
with a distinct nonempty text; the title is Alpha. -/
def genTitleA : ChatParams → Except String String := fun p =>
  if p.max_tokens = 20 then Except.ok "Alpha"
  else if p.max_tokens = 30 then Except.ok "Meta" else Except.ok "Body"

/-- Same backend as genTitleA except that the generated title is Beta. -/
def genTitleB : ChatParams → Except String String := fun p =>
  if p.max_tokens = 20 then Except.ok "Beta"
  else if p.max_tokens = 30 then Except.ok "Meta" else Except.ok "Body"

/-- One-article news success paired with genTitleA. -/
def envTitleA : Env := ⟨"key", NewsResult.success [⟨some "n"⟩], genTitleA⟩

/-- One-article news success paired with genTitleB. -/
def envTitleB : Env := ⟨"key", NewsResult.success [⟨some "n"⟩], genTitleB⟩

/-- A backend answering the three calls with distinct nonempty padded texts. -/
def genOK : ChatParams → Except String String := fun p =>
  if p.max_tokens = 20 then Except.ok " Nice Title "
  else if p.max_tokens = 30 then Except.ok " Meta text " else Except.ok " Body text "

/-- One-article news success paired with genOK. -/
def envOK : Env := ⟨"key", NewsResult.success [⟨some "n"⟩], genOK⟩

/-! The claims. -/

/-- C1: for every /generate-post request whose topic is the empty string or
whitespace-only, the handler returns the 400 client error and issues zero
outbound calls: neither the news call nor any generation call appears in
the trace. -/
theorem claim_C1 (env : Env) (topic : String) (h : strip topic = "") :
    generate_post env topic =
      (Except.error ⟨400, "Поле \x27topic\x27 не должно быть пустым"⟩, []) := by
  unfold generate_post
  have h2 : (strip topic).isEmpty = true := by rw [h]; rfl
  rw [h2, Bool.or_true]
  rfl

theorem claim_C1_witness :
    generate_post stubEnv "   " =
      (Except.error ⟨400, "Поле \x27topic\x27 не должно быть пустым"⟩, []) :=
  claim_C1 stubEnv "   " rfl

/-- C2: on a successful news response, get_recent_news returns the fixed
sentinel when the news list is empty, and otherwise the titles of the first
5 items (all items when fewer than 5) joined by newlines in original order,
a missing title contributing the empty string. -/
theorem claim_C2 (env : Env) (topic : String) (arts : List Article)
    (h : env.news = NewsResult.success arts) :
    (arts = [] → (get_recent_news env topic).1 = Except.ok newsSentinel) ∧
    (arts ≠ [] →
      (get_recent_news env topic).1 =
        Except.ok (String.intercalate "\n" ((arts.take 5).map (fun a => a.title.getD "")))) ∧
    (arts ≠ [] → arts.length ≤ 5 →
      (get_recent_news env topic).1 =
        Except.ok (String.intercalate "\n" (arts.map (fun a => a.title.getD "")))) := by
  rw [get_recent_news_ok env topic arts h]
  refine ⟨fun he => ?_, fun hne => ?_, fun hne hlen => ?_⟩
  · subst he
    rfl
  · have e : arts.isEmpty = false := by
      cases arts with
      | nil => exact absurd rfl hne
      | cons a tl => rfl
    show Except.ok (newsDigest arts) = _
    unfold newsDigest
    rw [e]
    rfl
  · have e : arts.isEmpty = false := by
      cases arts with
      | nil => exact absurd rfl hne
      | cons a tl => rfl
    show Except.ok (newsDigest arts) = _
    unfold newsDigest
    rw [e, List.take_of_length_le hlen]
    rfl

theorem claim_C2_witness :
    (get_recent_news env7 "ai").1 = Except.ok "t1\nt2\n\nt4\nt5" :=
  (claim_C2 env7 "ai" sevenArts rfl).2.1 (by decide)

/-- C3: a transport-level failure of the news call makes generate_content
fail with the 502 error whose detail embeds the cause text, /generate-post
returns that very same error unchanged (it is not re-wrapped as a 500), and
the trace holds only the single news call, so none of the three generation
calls is attempted. -/
theorem claim_C3 (env : Env) (topic cause : String)
    (hne : strip topic ≠ "")
    (h : env.news = NewsResult.failure cause) :
    generate_content env (strip topic) =
      (Except.error ⟨502, "Ошибка при обращении к Currents API: " ++ cause⟩,
       [OutboundCall.newsCall ⟨"en", strip topic, env.currentsKey⟩]) ∧
    generate_post env topic =
      (Except.error ⟨502, "Ошибка при обращении к Currents API: " ++ cause⟩,
       [OutboundCall.newsCall ⟨"en", strip topic, env.currentsKey⟩]) := by
  have hc := generate_content_newsFail env (strip topic) cause h
  exact ⟨hc, (generate_post_strip env topic hne).trans hc⟩

theorem claim_C3_witness :
    generate_content envFail (strip "ai") =
      (Except.error ⟨502, "Ошибка при обращении к Currents API: timeout"⟩,
       [OutboundCall.newsCall ⟨"en", "ai", "key"⟩]) ∧
    generate_post envFail "ai" =
      (Except.error ⟨502, "Ошибка при обращении к Currents API: timeout"⟩,
       [OutboundCall.newsCall ⟨"en", "ai", "key"⟩]) :=
  claim_C3 envFail "ai" "timeout" (by decide) rfl

/-- C4: when the title call succeeds and the meta-description call fails,
/generate-post returns the 500 error embedding the cause, the trace ends at
the meta call (the body call is never issued), and the result is an error,
so no partially built post reaches the caller. -/
theorem claim_C4 (env : Env) (topic : String) (arts : List Article)
    (t cause : String)
    (hne : strip topic ≠ "")
    (hnews : env.news = NewsResult.success arts)
    (ht : env.gen (titleParams (strip topic) (newsDigest arts)) = Except.ok t)
    (hm : env.gen (metaParams (strip t)) = Except.error cause) :
    generate_post env topic =
      (Except.error ⟨500, "Ошибка при обращении к OpenAI API: " ++ cause⟩,
       [OutboundCall.newsCall ⟨"en", strip topic, env.currentsKey⟩,
        OutboundCall.genCall (titleParams (strip topic) (newsDigest arts)),
        OutboundCall.genCall (metaParams (strip t))]) := by
  rw [generate_post_strip env topic hne]
  exact generate_content_metaFail env (strip topic) arts t cause hnews ht hm

theorem claim_C4_witness :
    generate_post envMetaFail "ai" =
      (Except.error ⟨500, "Ошибка при обращении к OpenAI API: boom"⟩,
       [OutboundCall.newsCall ⟨"en", "ai", "key"⟩,
        OutboundCall.genCall (titleParams "ai" "n"),
        OutboundCall.genCall (metaParams "T")]) :=
  claim_C4 envMetaFail "ai" [⟨some "n"⟩] " T " "boom" (by decide) rfl rfl rfl

/-- C5: the text embedded as the title inside the meta-description prompt is
exactly the stripped output of the title call, and the same string is the
title field of the final response. -/
theorem claim_C5 (env : Env) (topic : String) (arts : List Article) (t m b : String)
    (hne : strip topic ≠ "")
    (hnews : env.news = NewsResult.success arts)
    (ht : env.gen (titleParams (strip topic) (newsDigest arts)) = Except.ok t)
    (hm : env.gen (metaParams (strip t)) = Except.ok m)
    (hb : env.gen (bodyParams (strip topic) (newsDigest arts)) = Except.ok b) :
    (generate_post env topic).2.get? 2 = some (OutboundCall.genCall (metaParams (strip t))) ∧
    (metaParams (strip t)).content =
      "Напишите мета-описание для статьи с заголовком: \x27" ++ strip t ++
      "\x27. Оно должно быть полным, информативным и содержать основные ключевые слова. Не используй символы # и - в тексте, даже в заголовках." ∧
    (generate_post env topic).1 = Except.ok ⟨strip t, strip m, strip b⟩ := by
  rw [generate_post_strip env topic hne,
      generate_content_ok env (strip topic) arts t m b hnews ht hm hb]
  exact ⟨rfl, rfl, rfl⟩

theorem claim_C5_witness :
    (generate_post envOK "ai").2.get? 2 =
      some (OutboundCall.genCall (metaParams "Nice Title")) ∧
    (metaParams "Nice Title").content =
      "Напишите мета-описание для статьи с заголовком: \x27Nice Title\x27. Оно должно быть полным, информативным и содержать основные ключевые слова. Не используй символы # и - в тексте, даже в заголовках." ∧
    (generate_post envOK "ai").1 = Except.ok ⟨"Nice Title", "Meta text", "Body text"⟩ :=
  claim_C5 envOK "ai" [⟨some "n"⟩] " Nice Title " " Meta text " " Body text "
    (by decide) rfl rfl rfl rfl

/-- C6 counterexample: a run where the news call and all three generation
calls succeed, yet the returned post has an empty title, meta-description
and body, because the backend answered every call with whitespace-only
text; the claim that every successful run yields non-empty fields is
therefore false on the code. -/
theorem claim_C6_counterexample :
    envWS.gen (titleParams "ai" (newsDigest [⟨some "n"⟩])) = Except.ok " " ∧
    (generate_post envWS "ai").1 = Except.ok ⟨"", "", ""⟩ :=
  ⟨rfl, rfl⟩

/-- C6 (amended): when the news call and the three generation calls all
succeed, /generate-post returns a post whose three fields are exactly the
stripped texts of the corresponding generation calls, and each field is
non-empty whenever that stripped text is non-empty. -/
theorem claim_C6 (env : Env) (topic : String) (arts : List Article) (t m b : String)
    (hne : strip topic ≠ "")
    (hnews : env.news = NewsResult.success arts)
    (ht : env.gen (titleParams (strip topic) (newsDigest arts)) = Except.ok t)
    (hm : env.gen (metaParams (strip t)) = Except.ok m)
    (hb : env.gen (bodyParams (strip topic) (newsDigest arts)) = Except.ok b) :
    ∃ p : GeneratedPost,
      (generate_post env topic).1 = Except.ok p ∧
      p.title = strip t ∧ p.meta_description = strip m ∧ p.post_content = strip b ∧
      (strip t ≠ "" → p.title ≠ "") ∧
      (strip m ≠ "" → p.meta_description ≠ "") ∧
      (strip b ≠ "" → p.post_content ≠ "") := by
  rw [generate_post_strip env topic hne,
      generate_content_ok env (strip topic) arts t m b hnews ht hm hb]
  exact ⟨⟨strip t, strip m, strip b⟩, rfl, rfl, rfl, rfl,
    fun h => h, fun h => h, fun h => h⟩

theorem claim_C6_witness :
    ∃ p : GeneratedPost,
      (generate_post envOK "ai").1 = Except.ok p ∧
      p.title = strip " Nice Title " ∧ p.meta_description = strip " Meta text " ∧
      p.post_content = strip " Body text " ∧
      (strip " Nice Title " ≠ "" → p.title ≠ "") ∧
      (strip " Meta text " ≠ "" → p.meta_description ≠ "") ∧
      (strip " Body text " ≠ "" → p.post_content ≠ "") :=
  claim_C6 envOK "ai" [⟨some "n"⟩] " Nice Title " " Meta text " " Body text "
    (by decide) rfl rfl rfl rfl

/-- C7 counterexample: two runs over the same topic and the same news
response, differing only in the generated title (Alpha versus Beta, so all
earlier generated text differs), issue the very same fourth outbound call:
the body-generation prompt embeds no text produced by an earlier generation
call, refuting the final clause of the claim. -/
theorem claim_C7_counterexample :
    (generate_post envTitleA "ai").1 = Except.ok ⟨"Alpha", "Meta", "Body"⟩ ∧
    (generate_post envTitleB "ai").1 = Except.ok ⟨"Beta", "Meta", "Body"⟩ ∧
    ("Alpha" : String) ≠ "Beta" ∧
    (generate_post envTitleA "ai").2.get? 3 =
      some (OutboundCall.genCall (bodyParams "ai" "n")) ∧
    (generate_post envTitleB "ai").2.get? 3 =
      some (OutboundCall.genCall (bodyParams "ai" "n")) :=
  ⟨rfl, rfl, by decide, rfl, rfl⟩

/-- C7 (amended): the title and body prompts are functions of the topic and
the news digest alone, and the meta-description prompt is a function of the
generated title alone: two full runs over the same topic and news response
issue identical title calls and identical body calls even when the
generated titles differ, while each meta-description call embeds the
stripped title generated in its own run. -/
theorem claim_C7 (e₁ e₂ : Env) (topic : String) (arts : List Article)
    (t₁ t₂ m₁ m₂ b₁ b₂ : String)
    (hne : strip topic ≠ "")
    (hn₁ : e₁.news = NewsResult.success arts)
    (hn₂ : e₂.news = NewsResult.success arts)
    (ht₁ : e₁.gen (titleParams (strip topic) (newsDigest arts)) = Except.ok t₁)
    (ht₂ : e₂.gen (titleParams (strip topic) (newsDigest arts)) = Except.ok t₂)
    (hm₁ : e₁.gen (metaParams (strip t₁)) = Except.ok m₁)
    (hm₂ : e₂.gen (metaParams (strip t₂)) = Except.ok m₂)
    (hb₁ : e₁.gen (bodyParams (strip topic) (newsDigest arts)) = Except.ok b₁)
    (hb₂ : e₂.gen (bodyParams (strip topic) (newsDigest arts)) = Except.ok b₂) :
    (generate_post e₁ topic).2.get? 1 =
      some (OutboundCall.genCall (titleParams (strip topic) (newsDigest arts))) ∧
    (generate_post e₂ topic).2.get? 1 =
      some (OutboundCall.genCall (titleParams (strip topic) (newsDigest arts))) ∧
    (generate_post e₁ topic).2.get? 3 = (generate_post e₂ topic).2.get? 3 ∧
    (generate_post e₁ topic).2.get? 2 =
      some (OutboundCall.genCall (metaParams (strip t₁))) ∧
    (generate_post e₂ topic).2.get? 2 =
      some (OutboundCall.genCall (metaParams (strip t₂))) := by
  rw [generate_post_strip e₁ topic hne, generate_post_strip e₂ topic hne,
      generate_content_ok e₁ (strip topic) arts t₁ m₁ b₁ hn₁ ht₁ hm₁ hb₁,
      generate_content_ok e₂ (strip topic) arts t₂ m₂ b₂ hn₂ ht₂ hm₂ hb₂]
  exact ⟨rfl, rfl, rfl, rfl, rfl⟩

theorem claim_C7_witness :
    (generate_post envTitleA "ai").2.get? 1 =
      some (OutboundCall.genCall (titleParams (strip "ai") (newsDigest [⟨some "n"⟩]))) ∧
    (generate_post envTitleB "ai").2.get? 1 =
      some (OutboundCall.genCall (titleParams (strip "ai") (newsDigest [⟨some "n"⟩]))) ∧
    (generate_post envTitleA "ai").2.get? 3 = (generate_post envTitleB "ai").2.get? 3 ∧
    (generate_post envTitleA "ai").2.get? 2 =
      some (OutboundCall.genCall (metaParams (strip "Alpha"))) ∧
    (generate_post envTitleB "ai").2.get? 2 =
      some (OutboundCall.genCall (metaParams (strip "Beta"))) :=
  claim_C7 envTitleA envTitleB "ai" [⟨some "n"⟩] "Alpha" "Beta" "Meta" "Meta" "Body" "Body"
    (by decide) rfl rfl rfl rfl rfl rfl rfl rfl

/-- C8: the sampling parameters of the three generation calls are those of
the source: the title call caps output at 20 tokens, samples at temperature
1.0 and stops at the first newline; the meta-description call caps output
at 30 tokens and stops at the first period; the body call caps output at
1000 tokens, samples at temperature 1.0 and carries presence and frequency
penalties of 0.6, which are non-zero. -/
theorem claim_C8 (topic digest t : String) :
    (titleParams topic digest).max_tokens = 20 ∧
    (titleParams topic digest).temperature = 1 ∧
    (titleParams topic digest).stop = ["\n"] ∧
    (metaParams t).max_tokens = 30 ∧
    (metaParams t).stop = ["."] ∧
    (bodyParams topic digest).max_tokens = 1000 ∧
    (bodyParams topic digest).temperature = 1 ∧
    (bodyParams topic digest).presence_penalty = some (0.6 : ℚ) ∧
    (bodyParams topic digest).frequency_penalty = some (0.6 : ℚ) ∧
    (0.6 : ℚ) ≠ 0 :=
  ⟨rfl, rfl, rfl, rfl, rfl, rfl, rfl, rfl, rfl, by norm_num⟩

/-- C9: the handler passes the stripped topic to generate_content, so two
topics with the same stripped form (for instance one with surrounding
whitespace and its already-stripped form) produce the same handler result
under the same environment. -/
theorem claim_C9 (env : Env) (t₁ t₂ : String)
    (hne : strip t₁ ≠ "") (heq : strip t₁ = strip t₂) :
    generate_post env t₁ = generate_content env (strip t₁) ∧
    generate_post env t₁ = generate_post env t₂ := by
  have h₂ : strip t₂ ≠ "" := heq ▸ hne
  refine ⟨generate_post_strip env t₁ hne, ?_⟩
  rw [generate_post_strip env t₁ hne, generate_post_strip env t₂ h₂, heq]

theorem claim_C9_witness :
    generate_post stubEnv "  ai " = generate_content stubEnv (strip "  ai ") ∧
    generate_post stubEnv "  ai " = generate_post stubEnv "ai" :=
  claim_C9 stubEnv "  ai " "ai" (by decide) rfl

/-- C10: articles beyond the fifth never influence the output: two
successful news payloads agreeing on their first 5 articles (both
non-empty) give identical get_recent_news results and an identical
/generate-post result, all else equal. -/
theorem claim_C10 (key topic : String) (gen : ChatParams → Except String String)
    (l₁ l₂ : List Article)
    (h5 : l₁.take 5 = l₂.take 5) (h₁ : l₁ ≠ []) (h₂ : l₂ ≠ []) :
    get_recent_news ⟨key, NewsResult.success l₁, gen⟩ topic =
      get_recent_news ⟨key, NewsResult.success l₂, gen⟩ topic ∧
    generate_post ⟨key, NewsResult.success l₁, gen⟩ topic =
      generate_post ⟨key, NewsResult.success l₂, gen⟩ topic := by
  have hdig : newsDigest l₁ = newsDigest l₂ := newsDigest_take5 l₁ l₂ h5 h₁ h₂
  constructor
  · rw [get_recent_news_ok ⟨key, NewsResult.success l₁, gen⟩ topic l₁ rfl,
        get_recent_news_ok ⟨key, NewsResult.success l₂, gen⟩ topic l₂ rfl, hdig]
  · unfold generate_post
    rw [generate_content_digest_eq key (strip topic) gen l₁ l₂ hdig]

theorem claim_C10_witness :
    get_recent_news ⟨"key", NewsResult.success (sevenArts.take 6), genConst⟩ "ai" =
      get_recent_news ⟨"key", NewsResult.success sevenArts, genConst⟩ "ai" ∧
    generate_post ⟨"key", NewsResult.success (sevenArts.take 6), genConst⟩ "ai" =
      generate_post ⟨"key", NewsResult.success sevenArts, genConst⟩ "ai" :=
  claim_C10 "key" "ai" genConst (sevenArts.take 6) sevenArts rfl (by decide) (by decide)
